import Mathlib

/-!
# Verification of the Proxmark3 ISO 14443 Type B firmware core

Shallow embedding of `armsrc/iso14443b.c` (timing conversion, CRC-B framing,
the reader-direction UART, the tag-direction demodulator, the reader bit
encoder, the tag-simulator state machine and the ISO 14443-4 layer-4 engine
`iso14443b_apdu`), together with theorems checking the natural-language
specification of the module against this embedding.

Machine integers are modelled as `Nat` with explicit reductions modulo the
word size where C overflow semantics matters; signed quantities (the I/Q
correlator samples and the soft-decision accumulators) are modelled as `Int`.
Hardware interaction (the DMA ring and the demodulated sample stream) is
modelled by passing the sample or response sequence explicitly.
-/

namespace Iso14443b

/-! ## Constants (from `armsrc/iso14443b.c`) -/

/-- `MAX_14B_TIMEOUT`: FWT(max) = 4949 ms; SSP_CLK = 4949000 * 3.39 = 16777120. -/
def MAX_14B_TIMEOUT : Nat := 16777120

/-- Modelled from the spec: `MAX_FRAME_SIZE` is defined in a header that is not
under `src/`; the spec clamps the stored maximum frame size into `[1,256]` and
clamps oversized requests back to `MAX_FRAME_SIZE`, and the ISO max-frame-size
table tops out at 256, so the constant is modelled as 256. -/
def MAX_FRAME_SIZE : Nat := 256

/-- Modelled from the spec: the macro `HF14_ETU_TO_SSP` lives in `iso14b.h`,
which is not under `src/`.  The spec states one ETU equals 32 reader-mode SSP
ticks (`etu_to_ticks(1) = 32`), and the source comments agree
(512 ETU = 16384 SSP_CLK), so the macro is modelled as multiplication by 32 in
`uint32_t` arithmetic. -/
def HF14_ETU_TO_SSP (x : Nat) : Nat := (x * 32) % 2 ^ 32

/-! ## CRC-B (spec section 4.B)

Modelled from the spec: `AddCrc14B` and `check_crc(CRC_14443_B, ...)` are
implemented in `common/crc16.c`, which is not under `src/`.  The spec fixes the
algorithm completely: polynomial x^16+x^12+x^5+1 (reversed 0x8408), initial
value 0xFFFF, complemented output, little-endian (low byte first) append. -/

/-- One bit of the bit-serial CRC-B update. -/
def crcBBitStep (c : Nat) : Nat :=
  if c % 2 = 1 then (c / 2) ^^^ 0x8408 else c / 2

/-- Fold one input byte into the CRC-B accumulator. -/
def crcBByteStep (c b : Nat) : Nat :=
  Nat.iterate crcBBitStep 8 (c ^^^ (b % 256))

/-- CRC-B over a byte string: init 0xFFFF, complemented output. -/
def crc14b (bs : List Nat) : Nat :=
  (bs.foldl crcBByteStep 0xFFFF) ^^^ 0xFFFF

/-- `AddCrc14B(buf, len)`: append the CRC over `buf` low byte first. -/
def addCrc14B (bs : List Nat) : List Nat :=
  bs ++ [crc14b bs % 256, crc14b bs / 256]

/-- `check_crc(CRC_14443_B, buf, len)`: `len >= 3` and the trailing two bytes
equal the CRC over the preceding bytes. -/
def checkCrc14B (bs : List Nat) : Bool :=
  3 ≤ bs.length &&
    bs.drop (bs.length - 2) =
      [crc14b (bs.take (bs.length - 2)) % 256, crc14b (bs.take (bs.length - 2)) / 256]

/-! ## Timing state setters (`iso14b_set_timeout`, `iso14b_set_fwt`,
`iso14b_set_maxframesize`) -/

/-- `iso14b_set_timeout(timeout_etu)`: convert ETU to SSP ticks and clamp to
`MAX_14B_TIMEOUT`; returns the new value of `s_iso14b_timeout`. -/
def iso14b_set_timeout (timeout_etu : Nat) : Nat :=
  let ssp := HF14_ETU_TO_SSP timeout_etu
  if ssp > MAX_14B_TIMEOUT then MAX_14B_TIMEOUT else ssp

/-- `iso14b_set_fwt(fwt)`: store the FWI and update the derived timeout with
`iso14b_set_timeout(32 << fwt)` in the same call; returns the new pair
`(s_iso14b_fwt, s_iso14b_timeout)`.  The C shift `32 << fwt` is `uint32_t`
arithmetic at the call boundary, modelled modulo 2^32. -/
def iso14b_set_fwt (fwt : Nat) : Nat × Nat :=
  (fwt, iso14b_set_timeout ((32 * 2 ^ fwt) % 2 ^ 32))

/-- `iso14b_set_maxframesize(size)`: clamp sizes above 256 back to
`MAX_FRAME_SIZE`; returns the new value of `Uart.byteCntMax`. -/
def iso14b_set_maxframesize (size : Nat) : Nat :=
  if size > 256 then MAX_FRAME_SIZE else size

/-! ## Tag-direction demodulator (`Handle14443bSamplesFromTag`) -/

/-- The states of the `Demod` struct, in C declaration order. -/
inductive DemodSt
  | unsyncd
  | phaseRefTraining
  | waitForRisingEdgeOfSof
  | awaitingStartBit
  | receivingData
deriving DecidableEq, Repr

/-- The numeric value of each enumerator (C declaration order), used by the
comparison `Demod.state < DEMOD_PHASE_REF_TRAINING` in the receive loop. -/
def DemodSt.idx : DemodSt → Nat
  | .unsyncd => 0
  | .phaseRefTraining => 1
  | .waitForRisingEdgeOfSof => 2
  | .awaitingStartBit => 3
  | .receivingData => 4

/-- The `Demod` struct.  The output buffer is modelled by the trace `writes` of
`(index, value)` stores performed through `Demod.output[...] = ...`. -/
structure DemodState where
  state : DemodSt
  bitCount : Nat
  posCount : Nat
  thisBit : Int
  shiftReg : Nat
  max_len : Nat
  writes : List (Nat × Nat)
  len : Nat
  sumI : Int
  sumQ : Int
deriving DecidableEq, Repr

/-- `Demod14bInit(data, max_len)` followed by `Demod14bReset()`. -/
def Demod14bInit (max_len : Nat) : DemodState :=
  { state := .unsyncd, bitCount := 0, posCount := 0, thisBit := 0, shiftReg := 0,
    max_len := max_len, writes := [], len := 0, sumI := 0, sumQ := 0 }

/-- `SUBCARRIER_DETECT_THRESHOLD`. -/
def SUBCARRIER_DETECT_THRESHOLD : Int := 8

/-- `AMPLITUDE(ci,cq) = MAX(ABS(ci),ABS(cq)) + MIN(ABS(ci),ABS(cq))/2`. -/
def AMPLITUDE (ci cq : Int) : Int :=
  max |ci| |cq| + (min |ci| |cq|) / 2

/-- `MAKE_SOFT_DECISION()`: project `(ci, cq)` onto the quadrant of the
reference `(sumI, sumQ)`. -/
def softDecision (d : DemodState) (ci cq : Int) : Int :=
  (if d.sumI > 0 then ci else -ci) + (if d.sumQ > 0 then cq else -cq)

/-- One call of `Handle14443bSamplesFromTag(ci, cq)`: returns the new `Demod`
state and the C return value (true iff an EOF / end of frame was seen). -/
def Handle14443bSamplesFromTag (ci cq : Int) (d : DemodState) : DemodState × Bool :=
  match d.state with
  | .unsyncd =>
    if AMPLITUDE ci cq > SUBCARRIER_DETECT_THRESHOLD then
      ({ d with state := .phaseRefTraining, sumI := ci, sumQ := cq, posCount := 1 }, false)
    else (d, false)
  | .phaseRefTraining =>
    if AMPLITUDE ci cq > SUBCARRIER_DETECT_THRESHOLD then
      if (|d.sumI| > |d.sumQ| ∧ ((ci > 0 ∧ d.sumI > 0) ∨ (ci < 0 ∧ d.sumI < 0))) ∨
         (|d.sumI| ≤ |d.sumQ| ∧ ((cq > 0 ∧ d.sumQ > 0) ∨ (cq < 0 ∧ d.sumQ < 0))) then
        if d.posCount < 10 then
          ({ d with sumI := d.sumI + ci, sumQ := d.sumQ + cq,
                    posCount := d.posCount + 1 }, false)
        else
          ({ d with posCount := d.posCount + 1 }, false)
      else
        if d.posCount < 10 then
          ({ d with state := .unsyncd }, false)
        else
          let v := softDecision d ci cq
          ({ d with posCount := 1, thisBit := v, shiftReg := 0,
                    state := .receivingData }, false)
    else
      ({ d with state := .unsyncd }, false)
  | .awaitingStartBit =>
    let v := softDecision d ci cq
    let d1 := { d with posCount := d.posCount + 1 }
    if v > 0 then
      if d1.posCount > 3 * 2 then
        if d.bitCount = 0 ∧ d.len = 0 then (d1, true)
        else ({ d1 with state := .unsyncd }, false)
      else (d1, false)
    else
      ({ d1 with posCount := 1, thisBit := v, shiftReg := 0,
                 state := .receivingData }, false)
  | .waitForRisingEdgeOfSof =>
    let v := softDecision d ci cq
    let d1 := { d with posCount := d.posCount + 1 }
    if v > 0 then
      if d1.posCount < 9 * 2 then ({ d1 with state := .unsyncd }, false)
      else
        ({ d1 with posCount := 0, bitCount := 0, len := 0,
                   state := .awaitingStartBit }, false)
    else
      if d1.posCount > 12 * 2 then ({ d1 with state := .unsyncd }, false)
      else (d1, false)
  | .receivingData =>
    let v := softDecision d ci cq
    if d.posCount = 0 then
      ({ d with thisBit := v, posCount := 1 }, false)
    else
      let tb := d.thisBit + v
      let sr := d.shiftReg / 2 + (if tb > 0 then 0x200 else 0)
      let d1 := { d with thisBit := tb, shiftReg := sr, bitCount := d.bitCount + 1 }
      if d.bitCount + 1 = 10 then
        if sr &&& 0x200 ≠ 0 ∧ sr &&& 0x001 = 0 then
          -- data byte with correct start and stop bits
          ({ d1 with writes := d.writes ++ [(d.len, (sr / 2) % 256)],
                     len := d.len + 1, bitCount := 0,
                     state := .awaitingStartBit, posCount := 0 }, false)
        else
          if sr = 0 ∧ d.len > 0 then
            -- EOF
            (d1, true)
          else if sr = 0 then
            -- zeroes but no data yet: still inside a 14b SOF
            ({ d1 with posCount := 10 * 2, bitCount := 0, len := 0,
                       state := .waitForRisingEdgeOfSof }, false)
          else if AMPLITUDE ci cq < SUBCARRIER_DETECT_THRESHOLD ∧ d.len > 0 then
            -- subcarrier lost with data: accept partial frame
            ({ d1 with state := .unsyncd }, true)
          else
            -- no proper byte or EOF: re-hunt the SOF
            ({ d1 with bitCount := 0, len := 0,
                       state := .waitForRisingEdgeOfSof }, false)
      else
        ({ d1 with posCount := 0 }, false)

/-- Feed a sequence of I/Q sample pairs through the demodulator. -/
def demodRun (samples : List (Int × Int)) (d : DemodState) : DemodState :=
  samples.foldl (fun s p => (Handle14443bSamplesFromTag p.1 p.2 s).1) d

/-! ## Receive-loop timeout policy (`Get14443bAnswerFromTag`) -/

/-- Modelled from the spec: `GetCountSspClkDelta` is implemented in `ticks.c`,
which is not under `src/`; the spec mandates the 32-bit unsigned modular
difference `now - dma_start_time`. -/
def GetCountSspClkDelta (now start : Nat) : Nat :=
  (now + 2 ^ 32 - start % 2 ^ 32) % 2 ^ 32

/-- Outcome of one iteration of the receive loop in `Get14443bAnswerFromTag`. -/
inductive RecvOutcome
  | frameDone
  | timedOut
  | keepGoing
deriving DecidableEq, Repr

/-- One iteration of the sample-draining loop of `Get14443bAnswerFromTag`:
feed the sample to the demodulator; on a true return the frame is done;
otherwise time out exactly when the modular tick difference exceeds `timeout`
and `Demod.state < DEMOD_PHASE_REF_TRAINING` (C enum comparison). -/
def recvIter (ci cq : Int) (d : DemodState) (now start timeout : Nat) :
    DemodState × RecvOutcome :=
  let r := Handle14443bSamplesFromTag ci cq d
  if r.2 then (r.1, .frameDone)
  else if GetCountSspClkDelta now start > timeout ∧
          r.1.state.idx < DemodSt.idx .phaseRefTraining then
    (r.1, .timedOut)
  else (r.1, .keepGoing)

/-- A sample sequence driving the demodulator from reset to a committed data
byte: 10 constant training samples, then a start bit, the eight data bits of
0x00 and a stop bit at two samples per bit. -/
def overflowSamples : List (Int × Int) :=
  List.replicate 10 (20, 0) ++ List.replicate 18 (-20, 0) ++ List.replicate 2 (20, 0)

/-! ## Reader-direction UART (`Handle14443bSampleFromReader`) -/

/-- The states of the `Uart` struct, in C declaration order. -/
inductive UartSt
  | unsyncd
  | gotFallingEdgeOfSof
  | awaitingStartBit
  | receivingData
deriving DecidableEq, Repr

/-- The `Uart` struct.  The output buffer is modelled by the trace `writes` of
`(index, value)` stores performed through `Uart.output[...] = ...`. -/
structure UartState where
  state : UartSt
  shiftReg : Nat
  bitCnt : Nat
  byteCnt : Nat
  byteCntMax : Nat
  posCnt : Nat
  writes : List (Nat × Nat)
deriving DecidableEq, Repr

/-- State after `Uart14bReset()` (as set up by `Uart14bInit`). -/
def Uart14bReset : UartState :=
  { state := .unsyncd, shiftReg := 0, bitCnt := 0, byteCnt := 0,
    byteCntMax := MAX_FRAME_SIZE, posCnt := 0, writes := [] }

/-- One call of `Handle14443bSampleFromReader(bit)`, the quarter-ETU software
UART consuming demodulated bits from the reader: returns the new `Uart` state
and the C return value (true iff a complete frame was received). -/
def Handle14443bSampleFromReader (bit : Bool) (u : UartState) : UartState × Bool :=
  match u.state with
  | .unsyncd =>
    if bit = false then
      ({ u with state := .gotFallingEdgeOfSof, posCnt := 0, bitCnt := 0 }, false)
    else (u, false)
  | .gotFallingEdgeOfSof =>
    let u1 := { u with posCnt := u.posCnt + 1 }
    let u2 : UartState :=
      if u1.posCnt = 2 then
        let u3 : UartState :=
          if bit then
            if u1.bitCnt > 9 then
              { u1 with posCnt := 0, byteCnt := 0, state := .awaitingStartBit }
            else
              { u1 with state := .unsyncd }
          else u1
        { u3 with bitCnt := u3.bitCnt + 1 }
      else u1
    let u4 : UartState := if u2.posCnt ≥ 4 then { u2 with posCnt := 0 } else u2
    let u5 : UartState := if u4.bitCnt > 12 then { u4 with state := .unsyncd } else u4
    (u5, false)
  | .awaitingStartBit =>
    let u1 := { u with posCnt := u.posCnt + 1 }
    if bit then
      if u1.posCnt > 50 / 2 then ({ u1 with state := .unsyncd }, false)
      else (u1, false)
    else
      ({ u1 with posCnt := 0, bitCnt := 0, shiftReg := 0, state := .receivingData }, false)
  | .receivingData =>
    let u1 := { u with posCnt := u.posCnt + 1 }
    let u2 : UartState :=
      if u1.posCnt = 2 then
        { u1 with shiftReg := u1.shiftReg / 2 + (if bit then 0x200 else 0),
                  bitCnt := u1.bitCnt + 1 }
      else u1
    let u3 : UartState := if u2.posCnt ≥ 4 then { u2 with posCnt := 0 } else u2
    if u3.bitCnt = 10 then
      if u3.shiftReg &&& 0x200 ≠ 0 ∧ u3.shiftReg &&& 0x001 = 0 then
        let u4 := { u3 with writes := u3.writes ++ [(u3.byteCnt, (u3.shiftReg / 2) % 256)],
                            byteCnt := u3.byteCnt + 1 }
        if u4.byteCnt ≥ u4.byteCntMax then ({ u4 with state := .unsyncd }, false)
        else ({ u4 with posCnt := 0, state := .awaitingStartBit }, false)
      else if u3.shiftReg = 0 then
        ({ u3 with state := .unsyncd }, decide (u3.byteCnt ≠ 0))
      else
        ({ u3 with state := .unsyncd }, false)
    else (u3, false)

/-- Feed a sequence of demodulated bits through the reader-direction UART. -/
def uartRun (bits : List Bool) (u : UartState) : UartState :=
  bits.foldl (fun s b => (Handle14443bSampleFromReader b s).1) u

/-- A falling edge followed by `n` zero bit-periods and one one bit-period, at
four samples per bit. -/
def sofProbe (n : Nat) : List Bool :=
  List.replicate (4 * n) false ++ List.replicate 4 true

/-! ## Tag simulator state machine (`SimulateIso14443bTag`) -/

/-- The simulator card states. -/
inductive SimSt
  | powerOff
  | idle
  | ready
  | active
  | halt
deriving DecidableEq, Repr

/-- Which pre-encoded buffer a simulator iteration transmits. -/
inductive SimResp
  | atqb
  | ok
deriving DecidableEq, Repr

/-- Command byte `ISO14443B_REQB`. -/
def ISO14443B_REQB : Nat := 0x05

/-- Command byte `ISO14443B_HALT`. -/
def ISO14443B_HALT : Nat := 0x50

/-- Command byte `ISO14443B_ATTRIB`. -/
def ISO14443B_ATTRIB : Nat := 0x1D

/-- One iteration of the simulation loop of `SimulateIso14443bTag`: the field
check (below threshold forces `POWER_OFF`, above it wakes `POWER_OFF` to
`IDLE`), then the command dispatch on the received frame.  Returns the new
card state and the transmitted response, if any. -/
def simLoopStep (fieldOn : Bool) (st : SimSt) (cmd : List Nat) : SimSt × Option SimResp :=
  if fieldOn = false then (.powerOff, none)
  else
    let st := if st = .powerOff then .idle else st
    let len := cmd.length
    let c0 := cmd.headD 0
    let c2 := cmd.getD 2 0
    if len = 5 ∧ c0 = ISO14443B_REQB ∧ c2 &&& 0x08 ≠ 0 then
      -- WUPB
      match st with
      | .idle | .ready | .halt => (.ready, some .atqb)
      | _ => (st, some .atqb)
    else if len = 5 ∧ c0 = ISO14443B_REQB ∧ c2 &&& 0x08 = 0 then
      -- REQB
      match st with
      | .idle | .ready => (.ready, some .atqb)
      | .active => (.active, some .atqb)
      | _ => (st, none)
    else if len = 7 ∧ c0 = ISO14443B_HALT then
      -- HLTB
      match st with
      | .ready => (.halt, some .ok)
      | .idle | .active => (st, some .ok)
      | _ => (st, none)
    else if len = 11 ∧ c0 = ISO14443B_ATTRIB then
      -- ATTRIB
      match st with
      | .ready => (.active, some .ok)
      | .idle | .active => (st, some .ok)
      | _ => (st, none)
    else (st, none)

/-! ## Reader bit encoder (`CodeIso14443bAsReader`) -/

/-- Start bit, the eight data bits of each byte in the source's unrolled
order (least-significant bit first), and stop bit, for each input byte.
This is the body of the per-byte loop of `CodeIso14443bAsReader`. -/
def readerChars : List Nat → List Nat
  | [] => []
  | b :: rest =>
    [0, b &&& 1, (b >>> 1) &&& 1, (b >>> 2) &&& 1, (b >>> 3) &&& 1,
     (b >>> 4) &&& 1, (b >>> 5) &&& 1, (b >>> 6) &&& 1, (b >>> 7) &&& 1, 1] ++
    readerChars rest

/-- Modelled from the spec: `tosend_reset` and `tosend_stuffbit` live in
`armsrc/util.c`, which is not under `src/`; the spec describes the ToSend
buffer as a reset-then-append accumulator of logical modulation bits whose
final content is the emitted bit string, so the encoder is modelled as the
list of bits passed to `tosend_stuffbit` in order.
`CodeIso14443bAsReader(cmd, len, framing)`: SOF (10 zeros, 2 ones) and EOF
(10 zeros) only when `framing` is set, per-byte characters always. -/
def CodeIso14443bAsReader (cmd : List Nat) (framing : Bool) : List Nat :=
  (if framing then List.replicate 10 0 ++ [1, 1] else []) ++
  readerChars cmd ++
  (if framing then List.replicate 10 0 else [])

/-- Character bit pattern as the spec phrases it: a start bit 0, the eight
data bits least-significant-bit first, a stop bit 1. -/
def charBitsSpec (b : Nat) : List Nat :=
  0 :: (((List.range 8).map fun i => (b >>> i) &&& 1) ++ [1])

/-- Framed reader bit string as the spec phrases it: SOF of 10 zeros then 2
ones, the characters, then an EOF of 10 zeros. -/
def readerFrameSpec (cmd : List Nat) : List Nat :=
  List.replicate 10 0 ++ [1, 1] ++ (cmd.map charBitsSpec).flatten ++ List.replicate 10 0

/-! ## Layer-4 engine (`iso14443b_apdu`)

The session globals `s_iso14b_pcb_blocknum`, `s_iso14b_fwt` and
`s_iso14b_timeout` are threaded explicitly.  The tag is modelled by an oracle
list giving the outcome of each successive `Get14443bAnswerFromTag` call:
`none` is a non-`PM3_SUCCESS` return and `some r` a successful receive of the
frame `r` (the returned `len` is the frame's length).  An exhausted oracle
counts as a failed receive. -/

/-- Session state mutated by `iso14443b_apdu`. -/
structure ApduSession where
  blocknum : Nat
  fwt : Nat
  timeout : Nat
deriving DecidableEq, Repr

/-- Return disposition of `iso14443b_apdu`: `PM3_SUCCESS`, the forwarded
non-success status of the first receive, `PM3_ECARDEXCHANGE` from a failed
receive inside the S(WTX) loop, or `PM3_ECRC`. -/
inductive ApduStatus
  | success
  | firstRecvFailed
  | cardExchange
  | crcError
deriving DecidableEq, Repr

/-- The S(WTX) frame echoed back by the loop body: `data_bytes[1] = wtxm`,
then `AddCrc14B(data_bytes, len - 2)` recomputes the trailing CRC over the
first `len - 2` bytes.  Frames of length below 2 make the C code underflow
`len - 2` and write out of bounds; they are modelled as echoed unchanged
except for the `wtxm` store. -/
def wtxEcho (resp : List Nat) (wtxm : Nat) : List Nat :=
  if 2 ≤ resp.length then addCrc14B ((resp.set 1 wtxm).take (resp.length - 2))
  else resp.set 1 wtxm

/-- Condition of the S(WTX) loop: `len && ((data_bytes[0] & 0xF2) == 0xF2)`. -/
def isWtx (resp : List Nat) : Prop :=
  resp ≠ [] ∧ resp.headD 0 &&& 0xF2 = 0xF2

instance (resp : List Nat) : Decidable (isWtx resp) := by
  unfold isWtx; infer_instance

/-- Result of the S(WTX) loop. -/
structure WtxResult where
  resp : List Nat
  timeout : Nat
  recvTimeouts : List Nat
  txs : List (List Nat)
  failed : Bool
deriving DecidableEq, Repr

/-- The S(WTX) loop of `iso14443b_apdu`.  Each iteration saves the current
timeout, parses `wtxm = data_bytes[1] & 0x3F`, computes
`fwt_temp = s_iso14b_fwt * wtxm`, temporarily raises the timeout with
`iso14b_set_timeout(32 << fwt_temp)`, transmits the echoed S(WTX) frame and
receives again with the raised timeout; a failed receive returns
`PM3_ECARDEXCHANGE` with the raised timeout still stored, a successful one
restores the saved timeout and re-tests the loop condition. -/
def wtxLoop (fwt : Nat) : List (Option (List Nat)) → Nat → List Nat → WtxResult
  | [], timeout, resp =>
    if isWtx resp then
      let wtxm := resp.getD 1 0 &&& 0x3F
      let t2 := iso14b_set_timeout ((32 * 2 ^ (fwt * wtxm)) % 2 ^ 32)
      { resp := resp, timeout := t2, recvTimeouts := [t2],
        txs := [wtxEcho resp wtxm], failed := true }
    else
      { resp := resp, timeout := timeout, recvTimeouts := [], txs := [], failed := false }
  | none :: _, timeout, resp =>
    if isWtx resp then
      let wtxm := resp.getD 1 0 &&& 0x3F
      let t2 := iso14b_set_timeout ((32 * 2 ^ (fwt * wtxm)) % 2 ^ 32)
      { resp := resp, timeout := t2, recvTimeouts := [t2],
        txs := [wtxEcho resp wtxm], failed := true }
    else
      { resp := resp, timeout := timeout, recvTimeouts := [], txs := [], failed := false }
  | some r :: rest, timeout, resp =>
    if isWtx resp then
      let wtxm := resp.getD 1 0 &&& 0x3F
      let t2 := iso14b_set_timeout ((32 * 2 ^ (fwt * wtxm)) % 2 ^ 32)
      let res := wtxLoop fwt rest timeout r
      { res with recvTimeouts := t2 :: res.recvTimeouts,
                 txs := wtxEcho resp wtxm :: res.txs }
    else
      { resp := resp, timeout := timeout, recvTimeouts := [], txs := [], failed := false }

/-- Everything `iso14443b_apdu` returns or leaves behind: the status, the
session state at return, the post-loop frame buffer contents, the values
written through the out-parameters, and the trace of transmitted frames and
of the timeout passed to each receive. -/
structure ApduResult where
  status : ApduStatus
  blocknum : Nat
  fwt : Nat
  timeout : Nat
  final_resp : List Nat
  response_byte : Option Nat
  data : List Nat
  responselen : Nat
  recvTimeouts : List Nat
  txs : List (List Nat)
deriving DecidableEq, Repr

/-- Post-loop processing of `iso14443b_apdu` (executed when the first receive
succeeded with a nonempty frame): the `PM3_ECARDEXCHANGE` return on a failed
loop receive, the block-number toggle on a matching I- or R(ACK)-block, the
CRC check, and the PCB-byte cut.  When the final frame is empty the C code
reads `data_bytes[0]` from the stale receive buffer for the out-parameter
`response_byte`; that stale byte is modelled as the `headD` default 0. -/
def apduFinish (sess : ApduSession) (real_cmd : List Nat) (w : WtxResult) : ApduResult :=
  if w.failed then
    { status := .cardExchange, blocknum := sess.blocknum, fwt := sess.fwt,
      timeout := w.timeout, final_resp := w.resp, response_byte := none,
      data := [], responselen := 0,
      recvTimeouts := sess.timeout :: w.recvTimeouts, txs := real_cmd :: w.txs }
  else
    let fr := w.resp
    let b0 := fr.headD 0
    let bn :=
      if 3 ≤ fr.length ∧ ((b0 &&& 0xC0 = 0) ∨ (b0 &&& 0xD0 = 0x80)) ∧
         (b0 &&& 0x01 = sess.blocknum) then
        sess.blocknum ^^^ 1
      else sess.blocknum
    if 3 ≤ fr.length ∧ checkCrc14B fr = false then
      { status := .crcError, blocknum := bn, fwt := sess.fwt,
        timeout := w.timeout, final_resp := fr, response_byte := some b0,
        data := [], responselen := 0,
        recvTimeouts := sess.timeout :: w.recvTimeouts, txs := real_cmd :: w.txs }
    else
      { status := .success, blocknum := bn, fwt := sess.fwt,
        timeout := w.timeout, final_resp := fr, response_byte := some b0,
        data := fr.tail, responselen := fr.length - 1,
        recvTimeouts := sess.timeout :: w.recvTimeouts, txs := real_cmd :: w.txs }

/-- The layer-4 exchange `iso14443b_apdu(msg, msg_len, send_chaining, ...)`:
build the I-block (or R(ACK) when `msg` is empty) with the session block
number and CRC-B, transmit, receive, run the S(WTX) loop, toggle the block
number on a matching I- or R(ACK)-block, CRC-check and strip the PCB byte. -/
def iso14443b_apdu (msg : List Nat) (send_chaining : Bool) (sess : ApduSession)
    (oracle : List (Option (List Nat))) : ApduResult :=
  let real_cmd :=
    if msg ≠ [] then
      addCrc14B ((0x02 ||| (if send_chaining then 0x10 else 0) ||| sess.blocknum) :: msg)
    else
      addCrc14B [0xA2 ||| sess.blocknum]
  match oracle with
  | [] =>
    { status := .firstRecvFailed, blocknum := sess.blocknum, fwt := sess.fwt,
      timeout := sess.timeout, final_resp := [], response_byte := none,
      data := [], responselen := 0, recvTimeouts := [sess.timeout], txs := [real_cmd] }
  | none :: _ =>
    { status := .firstRecvFailed, blocknum := sess.blocknum, fwt := sess.fwt,
      timeout := sess.timeout, final_resp := [], response_byte := none,
      data := [], responselen := 0, recvTimeouts := [sess.timeout], txs := [real_cmd] }
  | some resp :: rest =>
    if resp = [] then
      -- len == 0: the whole post-processing block and the PCB cut are skipped
      { status := .success, blocknum := sess.blocknum, fwt := sess.fwt,
        timeout := sess.timeout, final_resp := [], response_byte := none,
        data := [], responselen := 0, recvTimeouts := [sess.timeout], txs := [real_cmd] }
    else
      apduFinish sess real_cmd (wtxLoop sess.fwt rest sess.timeout resp)

end Iso14443b

namespace Iso14443b

/-! ## Claim theorems: timing conversions -/

/-- **C5.** For every `fwi` in `[0,14]`, `iso14b_set_fwt fwi` stores `fwi` and,
in the same call, sets the derived timeout to
`min (32 * 2^fwi ETU in SSP ticks) MAX_14B_TIMEOUT`; in particular `fwi = 14`
is clamped to `MAX_14B_TIMEOUT`. -/
theorem c5_fwt_timeout (fwi : Nat) (h : fwi ≤ 14) :
    (iso14b_set_fwt fwi).1 = fwi ∧
    (iso14b_set_fwt fwi).2 = min (32 * 2 ^ fwi * 32) MAX_14B_TIMEOUT ∧
    (iso14b_set_fwt 14).2 = MAX_14B_TIMEOUT := by
  refine ⟨rfl, ?_, by decide⟩
  interval_cases fwi <;> decide

/-- Witness for `c5_fwt_timeout` at `fwi = 4`. -/
theorem c5_fwt_timeout_witness :
    (iso14b_set_fwt 4).1 = 4 ∧
    (iso14b_set_fwt 4).2 = min (32 * 2 ^ 4 * 32) MAX_14B_TIMEOUT ∧
    (iso14b_set_fwt 14).2 = MAX_14B_TIMEOUT :=
  c5_fwt_timeout 4 (by decide)

/-- **C6 (counterexample).** The claim says the stored maximum frame byte count
always lands in `[1,256]` and that size 0 never becomes the stored maximum;
but `iso14b_set_maxframesize 0` stores 0. -/
theorem c6_maxframesize_zero_cex :
    iso14b_set_maxframesize 0 = 0 ∧ ¬ (1 ≤ iso14b_set_maxframesize 0) := by
  decide

/-- **C6 (amended).** After `iso14b_set_maxframesize size` the stored maximum
frame byte count lies in `[0,256]`: sizes greater than 256 are clamped back to
`MAX_FRAME_SIZE` = 256, and the stored maximum is 0 exactly when `size = 0`
(the function accepts 0 and stores it). -/
theorem c6_maxframesize_range (size : Nat) :
    iso14b_set_maxframesize size ≤ 256 ∧
    (iso14b_set_maxframesize size = 0 ↔ size = 0) ∧
    (256 < size → iso14b_set_maxframesize size = MAX_FRAME_SIZE) := by
  unfold iso14b_set_maxframesize MAX_FRAME_SIZE
  split <;> omega

/-! ## Claim theorems: demodulator length invariant -/

/-- **C3 (counterexample).** The claim says every step from a reachable state
with `len ≤ max_len` keeps `len ≤ max_len` and never stores at an index
`≥ max_len`.  From `Demod14bInit 0` (where `len = 0 ≤ max_len = 0` holds), the
concrete sample sequence `overflowSamples` reaches `len = 1 > max_len` and a
byte is stored at index `0 ≥ max_len`: the byte-commit branch of
`Handle14443bSamplesFromTag` has no bounds check. -/
theorem c3_demod_overflow_cex :
    (Demod14bInit 0).len ≤ (Demod14bInit 0).max_len ∧
    (demodRun overflowSamples (Demod14bInit 0)).max_len = 0 ∧
    (demodRun overflowSamples (Demod14bInit 0)).len = 1 ∧
    (0, 0) ∈ (demodRun overflowSamples (Demod14bInit 0)).writes := by
  refine ⟨Nat.le_refl 0, ?_⟩
  decide

/-- **C3 (amended).** A demodulator step from a state with `len < max_len`
(strictly below) keeps `len ≤ max_len`, leaves `max_len` unchanged, and any
newly stored byte lands at an index `< max_len` (namely the pre-step `len`).
From `len = max_len` a completed character is stored at index `max_len` and
leaves `len = max_len + 1`; the receive loop reports that as `PM3_EOVFLOW`
after the frame completes. -/
theorem c3_demod_len_bound (ci cq : Int) (d : DemodState) (h : d.len < d.max_len) :
    (Handle14443bSamplesFromTag ci cq d).1.len ≤ d.max_len ∧
    (Handle14443bSamplesFromTag ci cq d).1.max_len = d.max_len ∧
    ∀ p ∈ (Handle14443bSamplesFromTag ci cq d).1.writes,
      p ∈ d.writes ∨ p.1 < d.max_len := by
  obtain ⟨st, bc, pc, tb, sr, ml, wr, len, sI, sQ⟩ := d
  simp only at h
  cases st <;>
    simp only [Handle14443bSamplesFromTag] <;>
    split_ifs <;>
    refine ⟨by dsimp only; omega, by rfl, fun p hp => ?_⟩ <;>
    dsimp only at hp <;>
    first
      | exact Or.inl hp
      | (rcases List.mem_append.mp hp with h1 | h1
         · exact Or.inl h1
         · cases List.mem_singleton.mp h1
           exact Or.inr h)

/-- Witness for `c3_demod_len_bound` on a state with room for one more byte. -/
theorem c3_demod_len_bound_witness :
    (Demod14bInit 1).len < (Demod14bInit 1).max_len ∧
    ((Handle14443bSamplesFromTag 20 0 (Demod14bInit 1)).1.len ≤ (Demod14bInit 1).max_len ∧
     (Handle14443bSamplesFromTag 20 0 (Demod14bInit 1)).1.max_len = (Demod14bInit 1).max_len ∧
     ∀ p ∈ (Handle14443bSamplesFromTag 20 0 (Demod14bInit 1)).1.writes,
       p ∈ (Demod14bInit 1).writes ∨ p.1 < (Demod14bInit 1).max_len) :=
  ⟨by decide, c3_demod_len_bound 20 0 (Demod14bInit 1) (by decide)⟩

/-! ## Claim theorems: receive-loop timeout policy -/

/-- **C4 (counterexample).** The claim says a timeout is raised whenever the
modular tick difference exceeds the timeout while the demodulator state is in
{UNSYNCD, PHASE_REF_TRAINING}.  Concretely, a first strong sample moves the
state to PHASE_REF_TRAINING, the elapsed delta 100 exceeds the timeout 0, and
yet the loop does not time out: the C comparison
`Demod.state < DEMOD_PHASE_REF_TRAINING` admits only UNSYNCD. -/
theorem c4_timeout_phase_training_cex :
    (recvIter 20 0 (Demod14bInit 8) 100 0 0).1.state = DemodSt.phaseRefTraining ∧
    GetCountSspClkDelta 100 0 > 0 ∧
    (recvIter 20 0 (Demod14bInit 8) 100 0 0).2 ≠ RecvOutcome.timedOut := by
  decide

/-- **C4 (amended).** A receive-loop iteration returns a timeout exactly when
the sample did not complete a frame, the 32-bit modular tick difference
`now - dma_start_time` exceeds the configured timeout, and the demodulator
state (after the sample) is UNSYNCD; from PHASE_REF_TRAINING onwards the
demodulator is allowed to finish regardless of total elapsed ticks. -/
theorem c4_timeout_iff (ci cq : Int) (d : DemodState) (now start timeout : Nat) :
    (recvIter ci cq d now start timeout).2 = RecvOutcome.timedOut ↔
      ((Handle14443bSamplesFromTag ci cq d).2 = false ∧
       GetCountSspClkDelta now start > timeout ∧
       (Handle14443bSamplesFromTag ci cq d).1.state = DemodSt.unsyncd) := by
  unfold recvIter
  rcases hr : Handle14443bSamplesFromTag ci cq d with ⟨d2, eof⟩
  cases eof <;> cases hs : d2.state <;>
    simp [hr, hs, DemodSt.idx] <;>
    split_ifs <;> simp_all

/-! ## Claim theorems: reader-direction UART SOF tolerance -/

/-- C8 (counterexample): the claim says a run of at least 10 zero bit-periods
followed by a one always transitions to AWAITING_START_BIT, but a run of 12
zeros followed by a one ends in UNSYNCD: the transition at the mid-bit sample
is followed by the unconditional `bitCnt++`, and the `bitCnt > 12` give-up
check then fires in the same call. -/
theorem c8_sof_12_zeros_cex :
    10 ≤ 12 ∧
    (uartRun (sofProbe 12) Uart14bReset).state ≠ UartSt.awaitingStartBit ∧
    (uartRun (sofProbe 12) Uart14bReset).state = UartSt.unsyncd := by
  exact ⟨by decide, by decide, by decide⟩

set_option maxRecDepth 8000 in
/-- C8 (amended): after a falling edge from UNSYNCD, a run of 9 consecutive
zero bit-periods followed by a one never reaches AWAITING_START_BIT (the
machine returns to UNSYNCD), and a run of exactly 10 or 11 zeros followed by
a one does transition to AWAITING_START_BIT.  The claim's blanket rule for
at-least-10 zeros fails at 12 zeros (the counterexample), but longer runs are
not monotone either: the `bitCnt > 12` give-up only returns the machine to
UNSYNCD, where the next zero sample re-arms it as a fresh falling edge, so a
run of 23 zeros followed by a one transitions again (final conjunct). -/
theorem c8_sof_tolerance (n : Nat) (h1 : 10 ≤ n) (h2 : n ≤ 11) :
    (uartRun (sofProbe n) Uart14bReset).state = UartSt.awaitingStartBit ∧
    (uartRun (sofProbe 9) Uart14bReset).state = UartSt.unsyncd ∧
    (uartRun (sofProbe 23) Uart14bReset).state = UartSt.awaitingStartBit := by
  interval_cases n <;> exact ⟨by decide, by decide, by decide⟩

/-- Witness for the amended SOF tolerance theorem at `n = 10`. -/
theorem c8_sof_tolerance_witness :
    (10 ≤ 10 ∧ 10 ≤ 11) ∧
    ((uartRun (sofProbe 10) Uart14bReset).state = UartSt.awaitingStartBit ∧
     (uartRun (sofProbe 9) Uart14bReset).state = UartSt.unsyncd ∧
     (uartRun (sofProbe 23) Uart14bReset).state = UartSt.awaitingStartBit) :=
  ⟨⟨by decide, by decide⟩, c8_sof_tolerance 10 (by decide) (by decide)⟩

/-! ## Claim theorems: tag simulator state machine -/

/-- C9: in the tag simulator with the field on, a 5-byte command-0x05 frame
with AFI-parameter bit 0x08 set (WUPB) moves IDLE, READY and HALT to READY
and transmits the ATQB; a 7-byte command-0x50 frame (HLTB) moves READY to
HALT and transmits the OK response; and a 5-byte command-0x05 frame with bit
0x08 clear (REQB) received in HALT is ignored: no transmission, no state
change. -/
theorem c9_sim_fsm (st : SimSt) (wupb hltb reqb : List Nat)
    (hst : st = SimSt.idle ∨ st = SimSt.ready ∨ st = SimSt.halt)
    (hw1 : wupb.length = 5) (hw2 : wupb.headD 0 = 0x05)
    (hw3 : wupb.getD 2 0 &&& 0x08 ≠ 0)
    (hh1 : hltb.length = 7) (hh2 : hltb.headD 0 = 0x50)
    (hr1 : reqb.length = 5) (hr2 : reqb.headD 0 = 0x05)
    (hr3 : reqb.getD 2 0 &&& 0x08 = 0) :
    simLoopStep true st wupb = (SimSt.ready, some SimResp.atqb) ∧
    simLoopStep true SimSt.ready hltb = (SimSt.halt, some SimResp.ok) ∧
    simLoopStep true SimSt.halt reqb = (SimSt.halt, none) := by
  rcases hst with rfl | rfl | rfl <;>
    simp_all [simLoopStep, ISO14443B_REQB, ISO14443B_HALT, ISO14443B_ATTRIB]

/-- Witness for the simulator theorem on the literal frames of the spec's
WUPB/HLTB cycle scenario. -/
theorem c9_sim_fsm_witness :
    simLoopStep true SimSt.idle [0x05, 0x00, 0x08, 0x39, 0x73] =
      (SimSt.ready, some SimResp.atqb) ∧
    simLoopStep true SimSt.ready [0x50, 0xAA, 0xAA, 0xAA, 0xAA, 0x01, 0x02] =
      (SimSt.halt, some SimResp.ok) ∧
    simLoopStep true SimSt.halt [0x05, 0x00, 0x00, 0x71, 0xFF] =
      (SimSt.halt, none) :=
  c9_sim_fsm SimSt.idle [0x05, 0x00, 0x08, 0x39, 0x73]
    [0x50, 0xAA, 0xAA, 0xAA, 0xAA, 0x01, 0x02] [0x05, 0x00, 0x00, 0x71, 0xFF]
    (Or.inl rfl) (by decide) (by decide) (by decide) (by decide) (by decide)
    (by decide) (by decide) (by decide)

/-! ## Claim theorems: reader bit encoder -/

/-- The per-byte character emission of the encoder agrees with the spec's
start/LSB-first-data/stop description. -/
theorem readerChars_eq_spec (cmd : List Nat) :
    readerChars cmd = (cmd.map charBitsSpec).flatten := by
  induction cmd with
  | nil => rfl
  | cons b rest ih =>
    simp [readerChars, charBitsSpec, List.range_succ, ih]

/-- C10: with framing, `CodeIso14443bAsReader` emits exactly the SOF of 10
zeros and 2 ones, then for each byte a start bit 0, its eight data bits
LSB-first and a stop bit 1, then an EOF of 10 zeros; for the single byte 0x01
the character between SOF and EOF is 0 1 0 0 0 0 0 0 0 1; without framing
only the per-byte characters are emitted. -/
theorem c10_reader_encoding (cmd : List Nat) :
    CodeIso14443bAsReader cmd true = readerFrameSpec cmd ∧
    CodeIso14443bAsReader cmd false = (cmd.map charBitsSpec).flatten ∧
    CodeIso14443bAsReader [0x01] true =
      List.replicate 10 0 ++ [1, 1] ++ [0, 1, 0, 0, 0, 0, 0, 0, 0, 1] ++
        List.replicate 10 0 := by
  refine ⟨?_, ?_, by decide⟩
  · simp [CodeIso14443bAsReader, readerFrameSpec, readerChars_eq_spec]
  · simp [CodeIso14443bAsReader, readerChars_eq_spec]

/-! ## Claim theorems: layer-4 S(WTX) handling and block numbers -/

/-- The post-loop processing never touches the timeout: it returns whatever
the S(WTX) loop left stored. -/
theorem apduFinish_timeout (sess : ApduSession) (rc : List Nat) (w : WtxResult) :
    (apduFinish sess rc w).timeout = w.timeout := by
  unfold apduFinish
  split_ifs with h1
  · rfl
  · dsimp only
    split_ifs <;> rfl

/-- A failed S(WTX)-loop receive surfaces as `PM3_ECARDEXCHANGE`. -/
theorem apduFinish_status_failed (sess : ApduSession) (rc : List Nat) (w : WtxResult)
    (hf : w.failed = true) :
    (apduFinish sess rc w).status = ApduStatus.cardExchange := by
  simp [apduFinish, hf]

/-- When the loop did not fail, the final response buffer is the loop's. -/
theorem apduFinish_final_resp (sess : ApduSession) (rc : List Nat) (w : WtxResult)
    (hf : w.failed = false) :
    (apduFinish sess rc w).final_resp = w.resp := by
  unfold apduFinish
  rw [if_neg (by simp [hf])]
  dsimp only
  split_ifs <;> rfl

/-- When the loop did not fail, the returned block number is the entry block
number, toggled under exactly the source's I-block / R(ACK) condition. -/
theorem apduFinish_blocknum (sess : ApduSession) (rc : List Nat) (w : WtxResult)
    (hf : w.failed = false) :
    (apduFinish sess rc w).blocknum =
      if 3 ≤ w.resp.length ∧
         ((w.resp.headD 0 &&& 0xC0 = 0) ∨ (w.resp.headD 0 &&& 0xD0 = 0x80)) ∧
         (w.resp.headD 0 &&& 0x01 = sess.blocknum) then
        sess.blocknum ^^^ 1
      else sess.blocknum := by
  unfold apduFinish
  rw [if_neg (by simp [hf])]
  dsimp only
  split_ifs <;> rfl

/-- C1 (divergence evaluation): with `fwi = 2` stored — for which
`iso14b_set_fwt` derives the frame waiting time 4096 SSP ticks — an S(WTX)
response with `wtxm = 5` makes `iso14443b_apdu` receive the follow-up with a
timeout of 1 048 576 ticks, because the code computes
`fwt_temp = s_iso14b_fwt * wtxm = 10` (multiplying the FWI exponent) and sets
`32 << 10` ETU; the claimed timeout FWT × wtxm would be 20 480 ticks.  The
echoed S(WTX) itself does carry the same `wtxm` and a fresh CRC-B. -/
theorem c1_swtx_timeout_eval :
    iso14b_set_fwt 2 = (2, 4096) ∧
    (iso14443b_apdu [0x00, 0xA4, 0x00, 0x00] false ⟨0, 2, 4096⟩
        [some [0xF2, 0x05, 0xAA, 0xBB], some (addCrc14B [0x02, 0x90, 0x00])]).recvTimeouts
      = [4096, 1048576] ∧
    (iso14443b_apdu [0x00, 0xA4, 0x00, 0x00] false ⟨0, 2, 4096⟩
        [some [0xF2, 0x05, 0xAA, 0xBB], some (addCrc14B [0x02, 0x90, 0x00])]).txs.getD 1 []
      = addCrc14B [0xF2, 0x05] ∧
    (1048576 : Nat) ≠ 5 * 4096 := by
  exact ⟨by decide, by decide, by decide, by decide⟩

/-- C2: whenever `iso14443b_apdu` gets past the S(WTX) loop (it returns
success or a CRC error, not a first-receive failure nor `PM3_ECARDEXCHANGE`),
the session block number is toggled if and only if the final response frame
is at least 3 bytes long, its first byte is an I-block or an R(ACK)-block,
and its low bit equals the current block number; otherwise it is unchanged. -/
theorem c2_blocknum_toggle (msg : List Nat) (send_chaining : Bool)
    (sess : ApduSession) (oracle : List (Option (List Nat)))
    (hb : sess.blocknum ≤ 1)
    (hs : (iso14443b_apdu msg send_chaining sess oracle).status = ApduStatus.success ∨
          (iso14443b_apdu msg send_chaining sess oracle).status = ApduStatus.crcError) :
    ((iso14443b_apdu msg send_chaining sess oracle).blocknum = sess.blocknum ^^^ 1 ↔
      (3 ≤ (iso14443b_apdu msg send_chaining sess oracle).final_resp.length ∧
       (((iso14443b_apdu msg send_chaining sess oracle).final_resp.headD 0 &&& 0xC0 = 0) ∨
        ((iso14443b_apdu msg send_chaining sess oracle).final_resp.headD 0 &&& 0xD0 = 0x80)) ∧
       ((iso14443b_apdu msg send_chaining sess oracle).final_resp.headD 0 &&& 0x01
          = sess.blocknum))) ∧
    (¬ (3 ≤ (iso14443b_apdu msg send_chaining sess oracle).final_resp.length ∧
        (((iso14443b_apdu msg send_chaining sess oracle).final_resp.headD 0 &&& 0xC0 = 0) ∨
         ((iso14443b_apdu msg send_chaining sess oracle).final_resp.headD 0 &&& 0xD0 = 0x80)) ∧
        ((iso14443b_apdu msg send_chaining sess oracle).final_resp.headD 0 &&& 0x01
           = sess.blocknum)) →
      (iso14443b_apdu msg send_chaining sess oracle).blocknum = sess.blocknum) := by
  have hxor : sess.blocknum ^^^ 1 ≠ sess.blocknum := by
    rcases (by omega : sess.blocknum = 0 ∨ sess.blocknum = 1) with h0 | h0 <;>
      rw [h0] <;> decide
  rcases oracle with _ | ⟨ro, rest⟩
  · simp [iso14443b_apdu] at hs
  · rcases ro with _ | resp
    · simp [iso14443b_apdu] at hs
    · by_cases hempty : resp = []
      · subst hempty
        exact ⟨iff_of_false (fun hcontra => hxor hcontra.symm)
                 (by simp [iso14443b_apdu]),
               fun _ => rfl⟩
      · by_cases hfail : (wtxLoop sess.fwt rest sess.timeout resp).failed = true
        · rcases hs with hs | hs <;>
          · simp only [iso14443b_apdu, if_neg hempty] at hs
            rw [apduFinish_status_failed _ _ _ hfail] at hs
            exact absurd hs (by decide)
        · have hf2 : (wtxLoop sess.fwt rest sess.timeout resp).failed = false := by
            simpa using hfail
          simp only [iso14443b_apdu, if_neg hempty]
          rw [apduFinish_blocknum _ _ _ hf2, apduFinish_final_resp _ _ _ hf2]
          split_ifs with hcond
          · exact ⟨iff_of_true rfl hcond, fun hc => absurd hcond hc⟩
          · exact ⟨iff_of_false (fun hcontra => hxor hcontra.symm) hcond,
                   fun _ => rfl⟩

/-- Witness for the block-number toggle theorem: a valid I-block response
with matching block number toggles the session block number to 1. -/
theorem c2_blocknum_toggle_witness :
    ((0 : Nat) ≤ 1 ∧
     (iso14443b_apdu [0x00] false ⟨0, 9, 16384⟩
        [some (addCrc14B [0x02, 0x90, 0x00])]).status = ApduStatus.success) ∧
    ((iso14443b_apdu [0x00] false ⟨0, 9, 16384⟩
        [some (addCrc14B [0x02, 0x90, 0x00])]).blocknum = (0 : Nat) ^^^ 1 ↔
      (3 ≤ (iso14443b_apdu [0x00] false ⟨0, 9, 16384⟩
              [some (addCrc14B [0x02, 0x90, 0x00])]).final_resp.length ∧
       (((iso14443b_apdu [0x00] false ⟨0, 9, 16384⟩
            [some (addCrc14B [0x02, 0x90, 0x00])]).final_resp.headD 0 &&& 0xC0 = 0) ∨
        ((iso14443b_apdu [0x00] false ⟨0, 9, 16384⟩
            [some (addCrc14B [0x02, 0x90, 0x00])]).final_resp.headD 0 &&& 0xD0 = 0x80)) ∧
       ((iso14443b_apdu [0x00] false ⟨0, 9, 16384⟩
            [some (addCrc14B [0x02, 0x90, 0x00])]).final_resp.headD 0 &&& 0x01 = 0))) :=
  ⟨⟨by decide, by decide⟩,
   (c2_blocknum_toggle [0x00] false ⟨0, 9, 16384⟩
      [some (addCrc14B [0x02, 0x90, 0x00])] (by decide) (Or.inl (by decide))).1⟩

/-- C7 (counterexample): the claim says the stored session timeout is restored
on every return path; but when the receive inside the S(WTX) loop fails, the
function returns `PM3_ECARDEXCHANGE` with the temporarily-raised timeout
(1 048 576 ticks) still stored instead of the entry value 4096. -/
theorem c7_timeout_not_restored_cex :
    (iso14443b_apdu [] false ⟨0, 2, 4096⟩
        [some [0xF2, 0x05, 0xAA, 0xBB], none]).status = ApduStatus.cardExchange ∧
    (iso14443b_apdu [] false ⟨0, 2, 4096⟩
        [some [0xF2, 0x05, 0xAA, 0xBB], none]).timeout = 1048576 ∧
    (ApduSession.mk 0 2 4096).timeout = 4096 ∧ (1048576 : Nat) ≠ 4096 := by
  exact ⟨by decide, by decide, by decide, by decide⟩

/-- The S(WTX) loop restores the entry timeout whenever it does not fail. -/
theorem wtxLoop_restores_timeout (fwt : Nat) :
    ∀ (oracle : List (Option (List Nat))) (timeout : Nat) (resp : List Nat),
      (wtxLoop fwt oracle timeout resp).failed = false →
      (wtxLoop fwt oracle timeout resp).timeout = timeout := by
  intro oracle
  induction oracle with
  | nil =>
    intro timeout resp h
    simp only [wtxLoop] at h ⊢
    split_ifs at h ⊢ <;> simp_all
  | cons o rest ih =>
    intro timeout resp h
    cases o with
    | none =>
      simp only [wtxLoop] at h ⊢
      split_ifs at h ⊢ <;> simp_all
    | some r =>
      simp only [wtxLoop] at h ⊢
      split_ifs at h ⊢ with hw
      · exact ih timeout r (by simpa using h)
      · rfl

/-- C7 (amended): on every return path of `iso14443b_apdu` except a failed
receive inside the S(WTX) loop (status `PM3_ECARDEXCHANGE`), the stored
session timeout at return equals its value at entry; the failed-receive path
returns with the temporarily-raised timeout still stored. -/
theorem c7_timeout_restored (msg : List Nat) (send_chaining : Bool)
    (sess : ApduSession) (oracle : List (Option (List Nat)))
    (h : (iso14443b_apdu msg send_chaining sess oracle).status ≠ ApduStatus.cardExchange) :
    (iso14443b_apdu msg send_chaining sess oracle).timeout = sess.timeout := by
  rcases oracle with _ | ⟨ro, rest⟩
  · simp [iso14443b_apdu]
  · rcases ro with _ | resp
    · simp [iso14443b_apdu]
    · by_cases hempty : resp = []
      · subst hempty
        simp [iso14443b_apdu]
      · simp only [iso14443b_apdu, if_neg hempty] at h ⊢
        by_cases hfail : (wtxLoop sess.fwt rest sess.timeout resp).failed = true
        · exact absurd (apduFinish_status_failed _ _ _ hfail) h
        · rw [apduFinish_timeout]
          exact wtxLoop_restores_timeout sess.fwt rest sess.timeout resp
            (by simpa using hfail)

/-- Witness for the timeout-restoration theorem on a successful exchange. -/
theorem c7_timeout_restored_witness :
    (iso14443b_apdu [0x00] false ⟨0, 9, 16384⟩
        [some (addCrc14B [0x02, 0x90, 0x00])]).status ≠ ApduStatus.cardExchange ∧
    (iso14443b_apdu [0x00] false ⟨0, 9, 16384⟩
        [some (addCrc14B [0x02, 0x90, 0x00])]).timeout = (ApduSession.mk 0 9 16384).timeout :=
  ⟨by decide,
   c7_timeout_restored [0x00] false ⟨0, 9, 16384⟩
     [some (addCrc14B [0x02, 0x90, 0x00])] (by decide)⟩

end Iso14443b
